import Mathlib

/-!
Verification development for the TokenGate cost-control gateway.

This file gives a shallow embedding, in Lean 4, of the admission-control
core of the gateway (pricing catalog, cost estimator, budget ledger,
anomaly detector, and the admission pipeline's decision wiring), translated
from the Python sources under `src/`, together with theorems settling the
specification claims about those components.

Modelling conventions:
- Monetary amounts and timestamps are rationals (`ℚ`): the Python code uses
  `Decimal` (exact) for ledger arithmetic and floats elsewhere, and every
  quantity the theorems touch is exactly representable.
- The shared key-value store (Redis) is modelled per component as a record
  of the keys that component touches; a key carries its value together with
  an optional absolute expiry time, and a read treats a key whose expiry
  has passed as absent (Redis lazy expiration).
- Fallible store access is modelled with `Except`: a function that the
  Python code lets raise is `Except`-valued, and a caught-and-swallowed
  exception is an explicit `Except.error` branch mapped to the fallback
  value the `except:` clause returns.
- The field operations on `ℚ` are irreducible in this toolchain, so the
  embedding computes with the wrappers `qadd`, `qsub`, `qmul`, `per1k`,
  `qmax` below, each proved equal to the ordinary operation; concrete
  scenarios then evaluate by `decide`.
-/

namespace TokenGate

/-! ## Kernel-computable rational arithmetic -/

/-- Kernel-computable addition on `ℚ` (equal to `+` by `qadd_eq`). -/
def qadd (a b : ℚ) : ℚ := mkRat (a.num * b.den + b.num * a.den) (a.den * b.den)

/-- Kernel-computable subtraction on `ℚ` (equal to `-` by `qsub_eq`). -/
def qsub (a b : ℚ) : ℚ := mkRat (a.num * b.den - b.num * a.den) (a.den * b.den)

/-- Kernel-computable multiplication on `ℚ` (equal to `*` by `qmul_eq`). -/
def qmul (a b : ℚ) : ℚ := mkRat (a.num * b.num) (a.den * b.den)

/-- Kernel-computable translation of the Python idiom `tokens / 1000.0`
(equal to division by 1000 by `per1k_eq`). -/
def per1k (tokens : Nat) : ℚ := mkRat tokens 1000

/-- Kernel-computable binary maximum on `ℚ` (equal to `max` by `qmax_eq`). -/
def qmax (a b : ℚ) : ℚ := if a ≤ b then b else a

theorem qadd_eq (a b : ℚ) : qadd a b = a + b := (Rat.add_def' a b).symm

theorem qsub_eq (a b : ℚ) : qsub a b = a - b := (Rat.sub_def' a b).symm

theorem qmul_eq (a b : ℚ) : qmul a b = a * b := by
  rw [qmul, Rat.mul_def, Rat.normalize_eq_mkRat]

theorem per1k_eq (t : Nat) : per1k t = (t : ℚ) / 1000 := by
  rw [per1k, Rat.mkRat_eq_div]
  norm_num

theorem qmax_eq (a b : ℚ) : qmax a b = max a b := by
  rw [qmax, max_def]

/-! ## Pricing catalog (`src/pricing/models.py`) -/

/-- A pricing-table entry: per-1000-token input and output prices
(the `data/pricing_tables.json` values for one model key). -/
structure Pricing where
  input : ℚ
  output : ℚ
deriving DecidableEq

/-- A pricing catalog: the JSON object `self.prices`, as an association
list in insertion (= Python dict iteration) order; keys are unique in a
Python dict. -/
abbrev Catalog := List (String × Pricing)

/-- Translation of Python's `s.startswith(k)`: `k` is a leading substring
of `s`. Character-list comparison, so it evaluates in the kernel. -/
def startswith (s k : String) : Bool := k.data.isPrefixOf s.data

/-- Translation of `PricingTable.get_pricing`: exact dict lookup first,
then a scan of the dict keys in iteration order returning the first key
`key` with `model.startswith(key)`; `none` models the `ValueError` raised
when nothing matches. -/
def get_pricing (prices : Catalog) (model : String) : Option Pricing :=
  match prices.lookup model with
  | some p => some p
  | none => (prices.find? (fun kv => startswith model kv.fst)).map Prod.snd

/-- Helper: `List.find?` returns `some a` exactly when the list splits as
`pre ++ a :: suf` with `p` failing on all of `pre` and holding at `a`. -/
theorem find?_eq_some_split {α : Type} (p : α → Bool) (l : List α) (a : α) :
    l.find? p = some a ↔
      p a = true ∧ ∃ pre suf, l = pre ++ a :: suf ∧ ∀ x ∈ pre, p x = false := by
  induction l with
  | nil => simp [List.find?]
  | cons b l ih =>
    by_cases hb : p b = true
    · simp only [List.find?, hb, Option.some.injEq]
      constructor
      · rintro rfl
        exact ⟨hb, [], l, rfl, by simp⟩
      · rintro ⟨hpa, pre, suf, heq, hpre⟩
        cases pre with
        | nil => exact (by simpa using heq : b = a ∧ l = suf).1
        | cons c pre =>
          have hc : b = c := by simpa using congrArg (fun t => t.head?) heq
          have : p c = false := hpre c (by simp)
          rw [← hc] at this
          rw [this] at hb
          cases hb
    · have hb' : p b = false := by
        cases h : p b with
        | false => rfl
        | true => exact absurd h hb
      simp only [List.find?, hb']
      rw [ih]
      constructor
      · rintro ⟨hpa, pre, suf, heq, hpre⟩
        refine ⟨hpa, b :: pre, suf, by rw [heq]; rfl, ?_⟩
        intro x hx
        rcases List.mem_cons.mp hx with rfl | hx
        · exact hb'
        · exact hpre x hx
      · rintro ⟨hpa, pre, suf, heq, hpre⟩
        cases pre with
        | nil =>
          have ha : b = a := by simpa using congrArg (fun t => t.head?) heq
          rw [← ha] at hpa
          rw [hpa] at hb'
          cases hb'
        | cons c pre =>
          have htl : l = pre ++ a :: suf := by simpa using congrArg (fun t => t.tail) heq
          exact ⟨hpa, pre, suf, htl, fun x hx => hpre x (by simp [hx])⟩

/-- A two-entry catalog, in insertion order, in which the longest matching
prefix of a dated `gpt-4-32k` variant is not the first matching prefix. -/
def c1Catalog : Catalog :=
  [("gpt-4", ⟨mkRat 3 100, mkRat 6 100⟩), ("gpt-4-32k", ⟨mkRat 6 100, mkRat 12 100⟩)]

/-- C1 counterexample: `get_pricing` does not resolve to the longest
registered prefix key. In `c1Catalog` the key `gpt-4-32k` is registered, is
a prefix of the requested name `gpt-4-32k-0613`, and is the longest
registered prefix of it, yet the lookup returns the `gpt-4` entry, not the
`gpt-4-32k` entry. -/
theorem C1_counterexample :
    get_pricing c1Catalog "gpt-4-32k-0613" = some ⟨mkRat 3 100, mkRat 6 100⟩ ∧
    c1Catalog.lookup "gpt-4-32k" = some ⟨mkRat 6 100, mkRat 12 100⟩ ∧
    startswith "gpt-4-32k-0613" "gpt-4-32k" = true ∧
    (∀ k ∈ c1Catalog.map Prod.fst,
      startswith "gpt-4-32k-0613" k = true → k.length ≤ "gpt-4-32k".length) ∧
    get_pricing c1Catalog "gpt-4-32k-0613" ≠ some ⟨mkRat 6 100, mkRat 12 100⟩ := by
  refine ⟨by decide, by decide, by decide, by decide, by decide⟩

/-- C1 (amended): characterization of `get_pricing`. An exact dict hit
returns that key's entry; otherwise the result is the entry of the FIRST
registered key, in catalog (insertion) order, that is a prefix of the
requested model name — not of the longest such key; and when no registered
key matches the result is `none` (the raised `ValueError`). -/
theorem C1_first_prefix_resolution (prices : Catalog) (model : String) (p : Pricing) :
    get_pricing prices model = some p ↔
      prices.lookup model = some p ∨
      (prices.lookup model = none ∧
        ∃ k pre suf, prices = pre ++ (k, p) :: suf ∧
          startswith model k = true ∧
          ∀ kv ∈ pre, startswith model kv.fst = false) := by
  unfold get_pricing
  cases hl : prices.lookup model with
  | some q =>
    simp only [Option.some.injEq]
    constructor
    · exact fun h => Or.inl h
    · rintro (h | ⟨hnone, -⟩)
      · exact h
      · cases hnone
  | none =>
    rw [Option.map_eq_some']
    constructor
    · rintro ⟨⟨k, q⟩, hfind, hsnd⟩
      obtain rfl : q = p := hsnd
      rcases (find?_eq_some_split _ _ _).mp hfind with ⟨hpk, pre, suf, heq, hpre⟩
      exact Or.inr ⟨rfl, k, pre, suf, heq, hpk, hpre⟩
    · rintro (h | ⟨-, k, pre, suf, heq, hpk, hpre⟩)
      · cases h
      · exact ⟨(k, p), (find?_eq_some_split _ _ _).mpr ⟨hpk, pre, suf, heq, hpre⟩, rfl⟩

/-! ## Cost estimator (`src/pricing/calculator.py`) -/

/-- Conservative fallback pricing (the gpt-4 tier, `0.03`/`0.06` per 1K
tokens) used by the calculator when `get_pricing` raises (`except
ValueError` branch). -/
def fallback_pricing : Pricing := ⟨mkRat 3 100, mkRat 6 100⟩

/-- Python `len(str(msg).split())`: the number of maximal whitespace-free
runs of the message's string rendering. -/
def wordCount (msg : String) : Nat :=
  ((msg.split Char.isWhitespace).filter (fun w => w ≠ "")).length

/-- Translation of `CostCalculator.estimate_cost`. A message is
represented by its `str(msg)` rendering; `messages = some []` models the
empty list, which is falsy in Python and therefore takes the same default
branch as `None`. -/
def estimate_cost (table : Catalog) (model : String) (input_tokens : Option Nat)
    (max_tokens : Option Nat) (messages : Option (List String)) : ℚ :=
  let pricing := match get_pricing table model with
    | some p => p
    | none => fallback_pricing
  let estimated_input : Nat :=
    match input_tokens with
    | some n => n
    | none =>
      match messages with
      | some (m :: ms) => ((m :: ms).map (fun msg => wordCount msg * 4)).sum
      | _ => 1000
  let estimated_output : Nat :=
    match max_tokens with
    | some n => n
    | none => 500
  qadd (qmul (per1k estimated_input) pricing.input)
    (qmul (per1k estimated_output) pricing.output)

/-- The usage object of an upstream response; the fields are optional
because the Python code reads them with `usage.get(..., 0)`. -/
structure Usage where
  prompt_tokens : Option Nat
  completion_tokens : Option Nat
deriving DecidableEq

/-- Translation of `CostCalculator.calculate_actual_cost`: same pricing
lookup with fallback, zero-filled usage fields. -/
def calculate_actual_cost (table : Catalog) (model : String) (usage : Usage) : ℚ :=
  let pricing := match get_pricing table model with
    | some p => p
    | none => fallback_pricing
  qadd (qmul (per1k (usage.prompt_tokens.getD 0)) pricing.input)
    (qmul (per1k (usage.completion_tokens.getD 0)) pricing.output)

/-- Input-token selection as the claim words it: the known count if given,
else 4 times the whitespace-delimited word count across all messages, else
the fixed default 1000. -/
def inputTokensSpec (input_tokens : Option Nat) (messages : Option (List String)) : Nat :=
  match input_tokens with
  | some n => n
  | none =>
    match messages with
    | some (m :: ms) => 4 * ((m :: ms).map wordCount).sum
    | _ => 1000

/-- Output-token selection as the claim words it: `maxTokens` if given,
else the fixed default 500. -/
def outputTokensSpec (max_tokens : Option Nat) : Nat :=
  match max_tokens with
  | some n => n
  | none => 500

/-- Helper: summing per-message `wordCount * 4` equals 4 times the total
word count. -/
theorem sum_map_mul_four (l : List String) :
    (l.map (fun msg => wordCount msg * 4)).sum = 4 * (l.map wordCount).sum := by
  induction l with
  | nil => simp
  | cons m ms ih =>
    simp only [List.map_cons, List.sum_cons, ih]
    ring

/-- The single-model catalog of end-to-end scenario B. -/
def scenarioBCatalog : Catalog := [("gpt-4", ⟨mkRat 3 100, mkRat 6 100⟩)]

/-- C7: `estimate_cost` is total (it is a plain function: an unknown model
takes the fallback tier instead of failing), and for every input it equals
`(inputTokens/1000)*inputPrice + (outputTokens/1000)*outputPrice` with the
claim's token-selection rules and the fallback pricing for unknown models;
concretely, `gpt-4` with `inputTokens = 1000`, `maxTokens = 500` at prices
`0.03`/`0.06` per 1K estimates `0.06`. -/
theorem C7_estimate_cost_characterization :
    (∀ (table : Catalog) (model : String) (input_tokens max_tokens : Option Nat)
      (messages : Option (List String)),
      estimate_cost table model input_tokens max_tokens messages =
        ((inputTokensSpec input_tokens messages : ℚ) / 1000) *
            ((get_pricing table model).getD fallback_pricing).input +
          ((outputTokensSpec max_tokens : ℚ) / 1000) *
            ((get_pricing table model).getD fallback_pricing).output) ∧
    estimate_cost scenarioBCatalog "gpt-4" (some 1000) (some 500) none = mkRat 6 100 ∧
    (mkRat 6 100 : ℚ) = 6 / 100 := by
  refine ⟨?_, by decide, by norm_num [Rat.mkRat_eq_div]⟩
  intro table model input_tokens max_tokens messages
  unfold estimate_cost inputTokensSpec outputTokensSpec
  rw [qadd_eq, qmul_eq, qmul_eq, per1k_eq, per1k_eq]
  cases hgp : get_pricing table model <;>
    cases input_tokens <;>
      rcases messages with - | (- | ⟨m, ms⟩) <;>
        simp [sum_map_mul_four] <;>
          exact Or.inl (by ring)

/-! ## Budget ledger (`src/budget/manager.py`) -/

/-- The two per-session ledger keys, `session:{id}:budget` and
`session:{id}:spent`; neither carries a TTL, both persist until reset.
`none` means the key is absent. Values are exact decimals (`Decimal` in
the source), embedded in `ℚ`. -/
structure BudgetStore where
  budget : Option ℚ
  spent : Option ℚ
deriving DecidableEq

/-- Translation of `BudgetManager.check_budget`, parameterized by the
configured `settings.default_budget` (`10.00` unless overridden): read the
budget key, initializing it to the default and persisting that default
when absent; read the spent key, `0.0` when absent; return whether
`budget - spent >= estimated_cost`, together with the store after the
read-side initialization. -/
def check_budget (default_budget : ℚ) (s : BudgetStore) (estimated_cost : ℚ) :
    Bool × BudgetStore :=
  let budget_value : ℚ := match s.budget with | none => default_budget | some b => b
  let s1 : BudgetStore :=
    match s.budget with
    | none => { s with budget := some default_budget }
    | some _ => s
  let spent_value : ℚ := match s.spent with | none => 0 | some v => v
  let remaining := qsub budget_value spent_value
  (decide (remaining ≥ estimated_cost), s1)

/-- Translation of `BudgetManager.deduct_cost`: read budget (initializing
the key to the default when absent) and spent, set
`new_spent = spent + actual_cost`, and return
`max(0, budget - new_spent)` with the updated store. -/
def deduct_cost (default_budget : ℚ) (s : BudgetStore) (actual_cost : ℚ) :
    ℚ × BudgetStore :=
  let budget_value : ℚ := match s.budget with | none => default_budget | some b => b
  let s1 : BudgetStore :=
    match s.budget with
    | none => { s with budget := some default_budget }
    | some _ => s
  let spent_value : ℚ := match s.spent with | none => 0 | some v => v
  let new_spent := qadd spent_value actual_cost
  let remaining := qsub budget_value new_spent
  (qmax 0 remaining, { s1 with spent := some new_spent })

/-- An opaque error raised by a Shared State Store operation. -/
structure StoreErr where
  msg : String
deriving DecidableEq

/-- Translation of `BudgetManager.get_budget`: the raw store read is the
argument; `except Exception: return None` maps a store failure to `none`,
exactly like an absent key. -/
def get_budget (read_budget : Except StoreErr (Option ℚ)) : Option ℚ :=
  match read_budget with
  | Except.error _ => none
  | Except.ok none => none
  | Except.ok (some v) => some v

/-- Translation of `BudgetManager.get_spent`: `except Exception: return
0.0` maps a store failure to `0`, exactly like an absent key. -/
def get_spent (read_spent : Except StoreErr (Option ℚ)) : ℚ :=
  match read_spent with
  | Except.error _ => 0
  | Except.ok none => 0
  | Except.ok (some v) => v

/-- The record returned by `BudgetManager.get_budget_info`. -/
structure BudgetInfo where
  budget : ℚ
  spent : ℚ
  remaining : ℚ
deriving DecidableEq

/-- Translation of `BudgetManager.get_budget_info`: limit falls back to
the configured default, `remaining = max(0, budget - spent)`. -/
def get_budget_info (default_budget : ℚ) (read_budget read_spent : Except StoreErr (Option ℚ)) :
    BudgetInfo :=
  let budget : ℚ := match get_budget read_budget with | none => default_budget | some b => b
  let spent := get_spent read_spent
  let remaining := qsub budget spent
  ⟨budget, spent, qmax 0 remaining⟩

/-- C5: `check_budget` returns true exactly when
`limit - spent >= estimatedCost` for the values at the instant of the read
(limit = stored limit, else the configured default; spent = stored spent,
else zero, both exact), it persists the default limit when the limit key
was absent (and otherwise leaves it unchanged), and it never changes the
spent key. -/
theorem C5_check_budget_iff_sufficient :
    ∀ (default_budget : ℚ) (s : BudgetStore) (estimated_cost : ℚ),
      ((check_budget default_budget s estimated_cost).fst = true ↔
        s.budget.getD default_budget - s.spent.getD 0 ≥ estimated_cost) ∧
      (check_budget default_budget s estimated_cost).snd.budget =
        some (s.budget.getD default_budget) ∧
      (check_budget default_budget s estimated_cost).snd.spent = s.spent := by
  intro d s e
  unfold check_budget
  cases hb : s.budget <;> cases hs : s.spent <;>
    simp [hb, hs, qsub_eq, decide_eq_true_iff]

/-- C6: `deduct_cost` sets `newSpent = spent + actualCost` and returns
`max(0, limit - newSpent)`; a sequence of three deductions leaves the
exact same store as a single deduction of the summed cost; and in
end-to-end scenario A (limit `10.00`, deduct `2.00`, then `3.00`, then
`1.50`) the final spent is `6.50` and the returned remaining is `3.50`. -/
theorem C6_deduct_cost_additive :
    (∀ (default_budget : ℚ) (s : BudgetStore) (c : ℚ),
      (deduct_cost default_budget s c).snd.spent = some (s.spent.getD 0 + c) ∧
      (deduct_cost default_budget s c).snd.budget = some (s.budget.getD default_budget) ∧
      (deduct_cost default_budget s c).fst =
        max 0 (s.budget.getD default_budget - (s.spent.getD 0 + c))) ∧
    (∀ (default_budget : ℚ) (s : BudgetStore) (c1 c2 c3 : ℚ),
      (deduct_cost default_budget
        (deduct_cost default_budget (deduct_cost default_budget s c1).snd c2).snd c3).snd =
      (deduct_cost default_budget s (c1 + c2 + c3)).snd) ∧
    ((deduct_cost 10 (deduct_cost 10 (deduct_cost 10 ⟨some 10, none⟩ 2).snd 3).snd
        (mkRat 3 2)).snd.spent = some (mkRat 13 2) ∧
      (deduct_cost 10 (deduct_cost 10 (deduct_cost 10 ⟨some 10, none⟩ 2).snd 3).snd
        (mkRat 3 2)).fst = mkRat 7 2 ∧
      (mkRat 13 2 : ℚ) = 13 / 2 ∧ (mkRat 7 2 : ℚ) = 7 / 2) := by
  refine ⟨?_, ?_, by decide, by decide, by norm_num [Rat.mkRat_eq_div],
    by norm_num [Rat.mkRat_eq_div]⟩
  · intro d s c
    unfold deduct_cost
    cases hb : s.budget <;> cases hs : s.spent <;>
      simp [hb, hs, qadd_eq, qsub_eq, qmax_eq]
  · intro d s c1 c2 c3
    unfold deduct_cost
    cases hb : s.budget <;> cases hs : s.spent <;>
      simp [hb, hs, qadd_eq, qsub_eq, qmax_eq, add_assoc]

/-- C10: the ledger read operations never raise: a store failure is mapped
by `get_budget` to `none` and by `get_spent` to `0`, indistinguishably
from an absent key, and `get_budget_info` therefore always returns a
result — on a failing store exactly the result for a session with no
budget set and zero spend (default limit, zero spent,
`remaining = max(0, default - 0)`). -/
theorem C10_budget_reads_never_raise :
    (∀ e : StoreErr, get_budget (Except.error e) = none) ∧
    (∀ e : StoreErr,
      get_budget (Except.error e) = get_budget (Except.ok none) ∧
      get_spent (Except.error e) = get_spent (Except.ok none)) ∧
    (∀ (d : ℚ) (e1 e2 : StoreErr),
      get_budget_info d (Except.error e1) (Except.error e2) =
        get_budget_info d (Except.ok none) (Except.ok none)) ∧
    (∀ d : ℚ, get_budget_info d (Except.ok none) (Except.ok none) = ⟨d, 0, max 0 (d - 0)⟩) := by
  refine ⟨fun e => rfl, fun e => ⟨rfl, rfl⟩, fun d e1 e2 => rfl, fun d => ?_⟩
  unfold get_budget_info get_budget get_spent
  simp [qsub_eq, qmax_eq]

/-! ## Anomaly detector (`src/anomaly/detector.py`) -/

/-- A Redis key's stored value together with its absolute expiry time;
`expiresAt = none` models a key without a TTL. The key counts as present
at time `t` exactly when `expiresAt` is `none` or `t < expiresAt`. -/
structure RKey (α : Type) where
  value : α
  expiresAt : Option ℚ
deriving DecidableEq

/-- Redis `GET`-style read with lazy expiration: an expired key reads as
absent. -/
def readKey {α : Type} (now : ℚ) (k : Option (RKey α)) : Option α :=
  match k with
  | none => none
  | some e =>
    match e.expiresAt with
    | none => some e.value
    | some ex => if now < ex then some e.value else none

/-- The request fingerprint of `AnomalyDetector._get_request_hash`: MD5 of
the canonical JSON of `{model, serialized messages, max_tokens}`. The hash
is modelled by the hashed content itself — the source uses the digest only
for equality, and MD5 collisions are an accepted false-positive risk the
spec explicitly does not defend against. The `messages` field carries the
`json.dumps` rendering, `""` for a falsy messages value. -/
structure Fingerprint where
  model : String
  messages : String
  max_tokens : Option Nat
deriving DecidableEq

/-- Translation of `AnomalyDetector._get_request_hash`. -/
def get_request_hash (model : String) (messages : Option String)
    (max_tokens : Option Nat) : Fingerprint :=
  ⟨model, messages.getD "", max_tokens⟩

/-- Freeze reasons, as structured data; the source stores formatted
strings whose variable parts are carried here as fields. -/
inductive Reason
  | rateLimit (count : Nat)
  | loopDetected (count : Nat)
  | highVelocity (total : ℚ)
deriving DecidableEq

/-- The reason part of a `check_anomalies` result: either the pre-existing
freeze (the `"Session frozen: ..."` rendering, whose payload is the stored
reason if its key is still alive) or a freshly triggered reason. -/
inductive AnomReason
  | frozen (reason : Option Reason)
  | fresh (reason : Reason)
deriving DecidableEq

/-- One audit-log entry written by `AnomalyDetector._log_request`. -/
structure HistoryEntry where
  timestamp : ℚ
  model : String
  cost : ℚ
deriving DecidableEq

/-- The per-session anomaly keys of `AnomalyDetector._get_keys` plus
`anomaly:{id}:freeze_reason`. The velocity key is a Redis sorted set,
modelled as a list of `(member, score)` pairs where the member is the
request timestamp (`str(timestamp)` in the source, injective on the times
used here) and the score is the recorded cost; the history key is a Redis
list, newest entry first. -/
structure AnomState where
  requestCount : Option (RKey Nat) := none
  lastHash : Option (RKey Fingerprint) := none
  identicalCount : Option (RKey Nat) := none
  velocity : Option (RKey (List (ℚ × ℚ))) := none
  frozenUntil : Option (RKey ℚ) := none
  freezeReason : Option (RKey Reason) := none
  history : Option (RKey (List HistoryEntry)) := none
deriving DecidableEq

/-- The state of a fresh session: no keys present. -/
def freshState : AnomState := {}

/-- `AnomalyDetector.__init__`: configured ceilings and durations. -/
def max_requests_per_minute : Nat := 100

/-- `AnomalyDetector.__init__`: identical-streak ceiling. -/
def max_identical_requests : Nat := 3

/-- `AnomalyDetector.__init__`: velocity threshold in USD per minute. -/
def velocity_threshold : ℚ := 1

/-- `AnomalyDetector.__init__`: freeze duration in seconds. -/
def freeze_duration_seconds : ℚ := 300

/-- Translation of `AnomalyDetector._freeze_session`: both freeze keys are
written with TTL equal to the freeze duration, `frozen_until` holding the
timestamp `now + freeze_duration`, so value and expiry coincide. -/
def freeze_session (now : ℚ) (reason : Reason) (s : AnomState) : AnomState :=
  let fu := qadd now freeze_duration_seconds
  { s with
    frozenUntil := some ⟨fu, some fu⟩
    freezeReason := some ⟨reason, some fu⟩ }

/-- Translation of `AnomalyDetector._unfreeze_session`: both freeze keys
are deleted unconditionally. -/
def unfreeze_session (s : AnomState) : AnomState :=
  { s with frozenUntil := none, freezeReason := none }

/-- Translation of `AnomalyDetector.is_session_frozen`: if `frozen_until`
reads as present and in the future, frozen with the stored reason; if
present but expired as a timestamp, lazy cleanup deletes both keys; else
not frozen. -/
def is_session_frozen (now : ℚ) (s : AnomState) : (Bool × Option Reason) × AnomState :=
  match readKey now s.frozenUntil with
  | some frozen_time =>
    if now < frozen_time then
      ((true, readKey now s.freezeReason), s)
    else
      ((false, none), unfreeze_session s)
  | none => ((false, none), s)

/-- Translation of check 3 of `AnomalyDetector.check_anomalies` (spending
velocity) together with the audit log: `zadd` the current cost under the
timestamp member, `zremrangebyscore 0 (now-60)` (removing by SCORE, i.e.
by cost, exactly as the source does), sum the remaining scores, freeze
when the sum exceeds the threshold and return anomalous; otherwise set the
set's TTL to 120 s, prepend an audit entry (list trimmed to 100 entries,
TTL 3600 s) and return not anomalous. `zadd`/`zremrangebyscore` preserve
an existing TTL, re-create an expired key without one, and Redis drops a
sorted set that becomes empty. -/
def velocity_check_and_log (now : ℚ) (model : String) (estimated_cost : ℚ)
    (s : AnomState) : (Bool × Option AnomReason) × AnomState :=
  let old : List (ℚ × ℚ) × Option ℚ :=
    match s.velocity with
    | none => ([], none)
    | some k =>
      match readKey now s.velocity with
      | some entries => (entries, k.expiresAt)
      | none => ([], none)
  let entries1 := (old.fst.filter (fun e => e.fst != now)) ++ [(now, estimated_cost)]
  let one_minute_ago := qsub now 60
  let entries2 :=
    entries1.filter (fun e => ! (decide (0 ≤ e.snd) && decide (e.snd ≤ one_minute_ago)))
  let total_cost_per_minute := (entries2.map Prod.snd).foldr qadd 0
  if velocity_threshold < total_cost_per_minute then
    let s1 := { s with
      velocity := if entries2.isEmpty then none else some ⟨entries2, old.snd⟩ }
    ((true, some (.fresh (.highVelocity total_cost_per_minute))),
      freeze_session now (.highVelocity total_cost_per_minute) s1)
  else
    let s1 := { s with
      velocity := if entries2.isEmpty then none else some ⟨entries2, some (qadd now 120)⟩ }
    let newHistory := (⟨now, model, estimated_cost⟩ :: (readKey now s1.history).getD []).take 100
    ((false, none), { s1 with history := some ⟨newHistory, some (qadd now 3600)⟩ })

/-- Translation of `AnomalyDetector.check_anomalies`, executed at time
`now` against session state `s`, in the source's fixed order with
short-circuiting: the already-frozen check, the 1-minute rate counter
(`INCR` then `EXPIRE 60`, both executed on every request), the
identical-fingerprint streak (streak deleted when the fingerprint
differs; the new fingerprint stored with TTL 300 s only on non-freezing
paths, since a loop freeze returns first), then the velocity check and
audit log. -/
def check_anomalies (now : ℚ) (model : String) (messages : Option String)
    (max_tokens : Option Nat) (estimated_cost : ℚ) (s : AnomState) :
    (Bool × Option AnomReason) × AnomState :=
  let frozenRes := is_session_frozen now s
  let s0 := frozenRes.snd
  if frozenRes.fst.fst then
    ((true, some (.frozen frozenRes.fst.snd)), s0)
  else
    let request_count := (readKey now s0.requestCount).getD 0 + 1
    let s1 := { s0 with requestCount := some ⟨request_count, some (qadd now 60)⟩ }
    if max_requests_per_minute < request_count then
      ((true, some (.fresh (.rateLimit request_count))),
        freeze_session now (.rateLimit request_count) s1)
    else
      let request_hash := get_request_hash model messages max_tokens
      let last_hash := readKey now s1.lastHash
      if last_hash = some request_hash then
        let identical_count := (readKey now s1.identicalCount).getD 0 + 1
        let s2 := { s1 with identicalCount := some ⟨identical_count, some (qadd now 300)⟩ }
        if max_identical_requests ≤ identical_count then
          ((true, some (.fresh (.loopDetected identical_count))),
            freeze_session now (.loopDetected identical_count) s2)
        else
          let s3 := { s2 with lastHash := some ⟨request_hash, some (qadd now 300)⟩ }
          velocity_check_and_log now model estimated_cost s3
      else
        let s2 := { s1 with identicalCount := none }
        let s3 := { s2 with lastHash := some ⟨request_hash, some (qadd now 300)⟩ }
        velocity_check_and_log now model estimated_cost s3

/-- The fixed request of end-to-end scenario D, sent repeatedly from a
fresh session at one-second intervals (times 0, 1, 2, ...). -/
def loopReq (now : ℚ) (s : AnomState) : (Bool × Option AnomReason) × AnomState :=
  check_anomalies now "gpt-4" (some "[loop-messages]") (some 100) 0 s

/-- Session state after `n` identical scenario-D requests. -/
def loopRun : Nat → AnomState
  | 0 => freshState
  | n + 1 => (loopReq n (loopRun n)).snd

/-- C2 counterexample: from a fresh session, the third consecutive
identical request is NOT rejected (the streak counter holds 2 < 3 after
it) and the session is not frozen by it. -/
theorem C2_counterexample :
    (loopReq 2 (loopRun 2)).fst = (false, none) ∧
    (loopRun 3).frozenUntil = none ∧
    (loopRun 3).freezeReason = none := by
  refine ⟨by decide, by decide, by decide⟩

/-- C2 (amended): the identical-streak counter counts repeats, so from a
fresh session the loop freeze fires on the FOURTH consecutive identical
request (when the streak reaches the ceiling 3): requests 1-3 are not
anomalous, request 4 is rejected with a loop-detected reason and freezes
the session for 300 s, and a differing request instead deletes the streak
counter (absent = zero) and is evaluated fresh. -/
theorem C2_loop_freezes_on_fourth_identical :
    (loopReq 0 (loopRun 0)).fst = (false, none) ∧
    (loopReq 1 (loopRun 1)).fst = (false, none) ∧
    (loopReq 2 (loopRun 2)).fst = (false, none) ∧
    (loopRun 3).identicalCount = some ⟨2, some 302⟩ ∧
    (loopReq 3 (loopRun 3)).fst = (true, some (.fresh (.loopDetected 3))) ∧
    (loopRun 4).frozenUntil = some ⟨303, some 303⟩ ∧
    (loopRun 4).freezeReason = some ⟨.loopDetected 3, some 303⟩ ∧
    (check_anomalies 3 "gpt-4" (some "[different-messages]") (some 100) 0
        (loopRun 3)).snd.identicalCount = none ∧
    (check_anomalies 3 "gpt-4" (some "[different-messages]") (some 100) 0
        (loopRun 3)).fst = (false, none) := by
  refine ⟨by decide, by decide, by decide, by decide, by decide, by decide, by decide,
    by decide, by decide⟩

/-- A probe request for the rate-counter TTL behaviour; the varying
`max_tokens` keeps fingerprints distinct so the loop check stays out of
the way. -/
def rateProbe (now : ℚ) (mt : Nat) (s : AnomState) : (Bool × Option AnomReason) × AnomState :=
  check_anomalies now "gpt-4" (some "[rate-messages]") (some mt) 0 s

/-- C3: the 1-minute counter's TTL IS refreshed by every increment, not
set only at creation: after a request at t=0 the counter expires at 60,
but a second request at t=30 moves the expiry to 90, and a third request
at t=70 — more than 60 s after the window began — still sees the counter
alive and increments it to 3 (under the claim it would have expired at
t=60 and restarted at 1). -/
theorem C3_rate_window_ttl_refreshed :
    ((rateProbe 0 0 freshState).snd.requestCount = some ⟨1, some 60⟩) ∧
    ((rateProbe 30 1 (rateProbe 0 0 freshState).snd).snd.requestCount = some ⟨2, some 90⟩) ∧
    ((rateProbe 70 2 (rateProbe 30 1 (rateProbe 0 0 freshState).snd).snd).snd.requestCount =
      some ⟨3, some 130⟩) := by
  refine ⟨by decide, by decide, by decide⟩

/-- The i-th request (0-indexed) of end-to-end scenario C: a burst of
pairwise-distinct requests from one session, all inside one 60-second
window (all at time 0; the varying `max_tokens` keeps fingerprints
distinct so the loop check never fires). -/
def burstReq (i : Nat) (s : AnomState) : (Bool × Option AnomReason) × AnomState :=
  check_anomalies 0 "gpt-4" (some "[burst-messages]") (some i) 0 s

/-- Session state after `n` scenario-C burst requests. -/
def burstRun : Nat → AnomState
  | 0 => freshState
  | n + 1 => (burstReq n (burstRun n)).snd

set_option maxRecDepth 8000

/-- Helper: the freeze keys after the 101st burst request. -/
theorem burst101_freeze_keys :
    (burstRun 101).frozenUntil = some ⟨300, some 300⟩ ∧
    (burstRun 101).freezeReason = some ⟨Reason.rateLimit 101, some 300⟩ := by
  refine ⟨by decide, by decide⟩

/-- C4: in scenario C the first 100 burst requests pass, the 101st is
rejected as anomalous with a rate-limit reason, every request in the
following 300 seconds is rejected with that frozen reason even though no
traffic is needed to keep the freeze alive, and at any time from 300 s on
the next frozen-state read reports not frozen with both freeze keys
absent (expiry-driven lazy unfreeze). -/
theorem C4_rate_limit_freeze_cycle (t : ℚ) (h1 : 0 < t) (h2 : t < 300)
    (model : String) (messages : Option String) (max_tokens : Option Nat)
    (cost : ℚ) (t2 : ℚ) (h3 : 300 ≤ t2) :
    ((List.range 100).all (fun i => !(burstReq i (burstRun i)).fst.fst) = true) ∧
    (burstReq 100 (burstRun 100)).fst = (true, some (.fresh (.rateLimit 101))) ∧
    (is_session_frozen t (burstRun 101)).fst = (true, some (.rateLimit 101)) ∧
    (check_anomalies t model messages max_tokens cost (burstRun 101)).fst =
      (true, some (.frozen (some (.rateLimit 101)))) ∧
    is_session_frozen t2 (burstRun 101) = ((false, none), burstRun 101) ∧
    readKey t2 (burstRun 101).frozenUntil = none ∧
    readKey t2 (burstRun 101).freezeReason = none := by
  have hfu := burst101_freeze_keys.1
  have hfr := burst101_freeze_keys.2
  have h4 : ¬ (t2 < 300) := not_lt.mpr h3
  refine ⟨by decide, by decide, ?_, ?_, ?_, ?_, ?_⟩
  · simp [is_session_frozen, readKey, hfu, hfr, h2]
  · simp [check_anomalies, is_session_frozen, readKey, hfu, hfr, h2]
  · simp [is_session_frozen, readKey, hfu, hfr, h4]
  · simp [readKey, hfu, h4]
  · simp [readKey, hfr, h4]

/-- C4 witness: the freeze cycle evaluated at t = 150 and t2 = 400. -/
theorem C4_rate_limit_freeze_cycle_witness :
    (0:ℚ) < 150 ∧ (150:ℚ) < 300 ∧ (300:ℚ) ≤ 400 ∧
    ((is_session_frozen 150 (burstRun 101)).fst = (true, some (.rateLimit 101)) ∧
      is_session_frozen 400 (burstRun 101) = ((false, none), burstRun 101)) := by
  have h := C4_rate_limit_freeze_cycle 150 (by decide) (by decide) "gpt-4" none none 0
    400 (by decide)
  exact ⟨by decide, by decide, by decide, h.2.2.1, h.2.2.2.2.1⟩

/-! ## Admission pipeline (`src/proxy/router.py`, `src/proxy/forwarder.py`) -/

/-- An upstream response body: the optional top-level usage object, plus
the rest of the JSON payload, opaque here. -/
structure UpstreamBody where
  usage : Option Usage
  payload : String
deriving DecidableEq

/-- The outcome of the upstream call as seen inside
`OpenAIForwarder.forward_request`: either the upstream responded (any
status), or one of the three caught transport failures. -/
inductive ForwardResult
  | success (status : Nat) (body : UpstreamBody)
  | timeout
  | connectionError (msg : String)
  | unexpectedError (msg : String)
deriving DecidableEq

/-- Translation of `OpenAIForwarder.forward_request`'s result mapping: an
upstream response passes through; `httpx.TimeoutException` becomes a 504
timeout-shaped body, `httpx.RequestError` a 502 connection-shaped body,
any other exception a 500 generic-shaped body, none carrying a usage
object. -/
def forward_request : ForwardResult → Nat × UpstreamBody
  | .success status body => (status, body)
  | .timeout =>
    (504, ⟨none, "timeout_error: Request timeout while forwarding to OpenAI"⟩)
  | .connectionError m =>
    (502, ⟨none, "connection_error: Failed to forward request to OpenAI: " ++ m⟩)
  | .unexpectedError m =>
    (500, ⟨none, "internal_error: Unexpected error: " ++ m⟩)

/-- The caller-visible outcome of the post-forward half of
`process_request`: the response returned and the ledger store as left
behind. -/
structure SettleResult where
  status : Nat
  body : UpstreamBody
  store : BudgetStore
deriving DecidableEq

/-- Translation of the accounting tail of `process_request` (router lines
165-229): `actual_cost` starts at 0 and is computed only for a 200
response carrying a usage object, a raising `calculate_actual_cost` being
caught and logged (leaving 0); the deduction runs only for a 200 response
with positive actual cost, a raising `deduct_cost` being caught and
logged (leaving the ledger as it was); the upstream status and body are
returned to the caller either way. The two `_raises` flags stand for the
store/calculator faults the source catches at these two call sites. -/
def settle_after_forward (table : Catalog) (default_budget : ℚ) (model : String)
    (fr : ForwardResult) (store : BudgetStore)
    (calc_raises deduct_raises : Bool) : SettleResult :=
  let st := forward_request fr
  let status_code := st.fst
  let response_body := st.snd
  let actual_cost : ℚ :=
    if status_code = 200 then
      match response_body.usage with
      | some u => if calc_raises then 0 else calculate_actual_cost table model u
      | none => 0
    else 0
  let store1 :=
    if status_code = 200 ∧ 0 < actual_cost ∧ deduct_raises = false then
      (deduct_cost default_budget store actual_cost).snd
    else store
  ⟨status_code, response_body, store1⟩

/-- C8: the pipeline never touches the ledger unless the upstream
returned a 200 success — in particular never after the three transport
failures, which map to 504/502/500 — and the upstream status and body
are returned to the caller unchanged regardless of any caught
actual-cost or deduction failure. -/
theorem C8_no_deduction_without_success :
    (∀ (table : Catalog) (default_budget : ℚ) (model : String)
        (fr : ForwardResult) (store : BudgetStore) (calc_raises deduct_raises : Bool),
      (settle_after_forward table default_budget model fr store calc_raises
          deduct_raises).status = (forward_request fr).fst ∧
      (settle_after_forward table default_budget model fr store calc_raises
          deduct_raises).body = (forward_request fr).snd ∧
      ((settle_after_forward table default_budget model fr store calc_raises
          deduct_raises).store = store ∨ (forward_request fr).fst = 200)) ∧
    (∀ (table : Catalog) (default_budget : ℚ) (model : String)
        (store : BudgetStore) (calc_raises deduct_raises : Bool),
      (settle_after_forward table default_budget model ForwardResult.timeout store
          calc_raises deduct_raises).store = store ∧
      (∀ m, (settle_after_forward table default_budget model
          (ForwardResult.connectionError m) store calc_raises deduct_raises).store = store) ∧
      (∀ m, (settle_after_forward table default_budget model
          (ForwardResult.unexpectedError m) store calc_raises deduct_raises).store = store)) := by
  constructor
  · intro table d model fr store cr dr
    refine ⟨rfl, rfl, ?_⟩
    by_cases h200 : (forward_request fr).fst = 200
    · exact Or.inr h200
    · left
      simp [settle_after_forward, h200]
  · intro table d model store cr dr
    refine ⟨?_, fun m => ?_, fun m => ?_⟩ <;>
      simp [settle_after_forward, forward_request]

/-- The admission decision of `process_request` (router lines 73-155),
with its three fallible sub-calls passed in as results: the anomaly check
is NOT wrapped in try/except, so its store error propagates out of the
pipeline; a failing cost estimation is caught and mapped to a 500
internal error; a failing budget check is caught and mapped to a 503
service-unavailable; an anomalous request is rejected 429
rate-limit-class, an insufficient budget 429 quota-class with the budget
snapshot. -/
inductive AdmissionOutcome
  | rejectedAnomaly (reason : Option AnomReason)
  | estimateError
  | budgetUnavailable
  | rejectedQuota (remaining : ℚ)
  | admitted (estimated_cost : ℚ)
deriving DecidableEq

/-- Decision wiring of `process_request` up to the forward step; see
`AdmissionOutcome`. -/
def admission (anomaly_result : Except StoreErr (Bool × Option AnomReason))
    (estimate_result : Except StoreErr ℚ)
    (budget_check : ℚ → Except StoreErr Bool)
    (budget_info_remaining : ℚ) : Except StoreErr AdmissionOutcome :=
  match anomaly_result with
  | .error e => .error e
  | .ok (true, reason) => .ok (.rejectedAnomaly reason)
  | .ok (false, _) =>
    match estimate_result with
    | .error _ => .ok .estimateError
    | .ok cost =>
      match budget_check cost with
      | .error _ => .ok .budgetUnavailable
      | .ok false => .ok (.rejectedQuota budget_info_remaining)
      | .ok true => .ok (.admitted cost)

/-- The Anomaly Engine's store access with reachability made explicit:
`AnomalyDetector.check_anomalies` wraps none of its Redis operations in
try/except, so with the store unreachable the first operation raises and
the exception leaves the engine unhandled; with a reachable store the
pure transition runs. -/
def check_anomalies_store (store_down : Bool) (now : ℚ) (model : String)
    (messages : Option String) (max_tokens : Option Nat) (estimated_cost : ℚ)
    (s : AnomState) : Except StoreErr ((Bool × Option AnomReason) × AnomState) :=
  if store_down then .error ⟨"redis: connection refused"⟩
  else .ok (check_anomalies now model messages max_tokens estimated_cost s)

/-- C9 counterexample: with the store down during the anomaly check the
error does propagate uncaught out of the engine, but the admission
pipeline does NOT map it to a service-unavailable rejection — the
exception propagates out of `process_request` as well (the framework's
generic handler answers, not the pipeline). -/
theorem C9_counterexample :
    check_anomalies_store true 0 "gpt-4" none none 0 freshState =
      Except.error ⟨"redis: connection refused"⟩ ∧
    admission (Except.error ⟨"redis: connection refused"⟩) (Except.ok 0)
        (fun _ => Except.ok true) 0 =
      Except.error ⟨"redis: connection refused"⟩ ∧
    admission (Except.error ⟨"redis: connection refused"⟩) (Except.ok 0)
        (fun _ => Except.ok true) 0 ≠
      Except.ok AdmissionOutcome.budgetUnavailable := by
  exact ⟨rfl, rfl, fun h => Except.noConfusion h⟩

/-- C9 (amended): a store failure during the anomaly check propagates
uncaught out of the Anomaly Engine AND out of the admission pipeline —
the pipeline never answers, so in particular it never treats the request
as not anomalous and never produces its own (service-unavailable or
other) rejection for this case; the pipeline's service-unavailable
mapping exists only for a store failure during the budget check. -/
theorem C9_store_failure_propagation :
    (∀ (e : StoreErr) (est : Except StoreErr ℚ) (chk : ℚ → Except StoreErr Bool) (r : ℚ),
      admission (Except.error e) est chk r = Except.error e) ∧
    (∀ (e : StoreErr) (est : Except StoreErr ℚ) (chk : ℚ → Except StoreErr Bool) (r : ℚ)
        (out : AdmissionOutcome),
      admission (Except.error e) est chk r ≠ Except.ok out) ∧
    (∀ (now : ℚ) (model : String) (messages : Option String) (mt : Option Nat)
        (c : ℚ) (s : AnomState),
      check_anomalies_store true now model messages mt c s =
        Except.error ⟨"redis: connection refused"⟩) ∧
    (∀ (cost : ℚ) (reason : Option AnomReason) (e : StoreErr) (r : ℚ),
      admission (Except.ok (false, reason)) (Except.ok cost) (fun _ => Except.error e) r =
        Except.ok AdmissionOutcome.budgetUnavailable) := by
  refine ⟨fun e est chk r => rfl, ?_, fun now model messages mt c s => rfl,
    fun cost reason e r => rfl⟩
  intro e est chk r out h
  exact Except.noConfusion h

end TokenGate
